import Mathlib

/-!
Verification of the data-cleaning engine: a shallow embedding of the
Analyzer issue detectors (`Analyzer.js`, the complete variant) and of the
Cleaner transformations (`transformations.js`), together with theorems
settling the specification claims.

JavaScript scalar values are modelled by `Cell`; JS numbers are modelled
by exact rationals (`ℚ`), with `NaN` as a separate constructor.  The
builtin coercions `Number(v)`, `String(v)` and strict equality `===` are
modelled on the fragment of values the engine manipulates.  The external
builtins `Date.parse` and the Fuse.js fuzzy search are modelled as
function parameters, since their code is not part of the repository.
-/

/-- A JavaScript scalar cell value: `null`, `undefined`, a (non-NaN)
number, `NaN`, a string, or a boolean. -/
inductive Cell where
  | vNull : Cell
  | vUndef : Cell
  | vNaN : Cell
  | vNum : ℚ → Cell
  | vStr : String → Cell
  | vBool : Bool → Cell
deriving DecidableEq, Repr

namespace Cell

/-- Model of JS strict equality `===` on cells; note `NaN === NaN` is false. -/
def jsEq : Cell → Cell → Bool
  | vNaN, _ => false
  | _, vNaN => false
  | vNull, vNull => true
  | vUndef, vUndef => true
  | vNum a, vNum b => a == b
  | vStr a, vStr b => a == b
  | vBool a, vBool b => a == b
  | _, _ => false

/-- Model of JS truthiness (`Boolean(v)`): `null`, `undefined`, `NaN`, `0`,
`""` and `false` are falsy, everything else is truthy. -/
def truthy : Cell → Bool
  | vNull => false
  | vUndef => false
  | vNaN => false
  | vNum q => q ≠ 0
  | vStr s => s ≠ ""
  | vBool b => b

end Cell

/-- Strip leading and trailing whitespace from a character list. -/
def trimChars (l : List Char) : List Char :=
  ((l.dropWhile Char.isWhitespace).reverse.dropWhile Char.isWhitespace).reverse

/-- Model of JS `String.prototype.trim`. -/
def jsTrim (s : String) : String := String.mk (trimChars s.toList)

/-- Model of JS `String.prototype.toLowerCase` (ASCII fragment). -/
def jsLower (s : String) : String := String.mk (s.toList.map Char.toLower)

/-- The numeric value of a digit run (most significant digit first). -/
def digitsVal : List Char → ℕ
  | [] => 0
  | c :: cs => (c.toNat - 48) * 10 ^ cs.length + digitsVal cs

/-- Split a character list into its maximal leading digit run and the rest. -/
def takeDigits : List Char → List Char × List Char
  | [] => ([], [])
  | c :: cs =>
    if c.isDigit then
      let (ds, rest) := takeDigits cs
      (c :: ds, rest)
    else ([], c :: cs)

/-- Model of the JS `Number(...)` coercion on a string, for the decimal
fragment `[-+]?\d+(\.\d+)?` (after trimming) plus the whitespace-only
string, which JS coerces to `0`.  Inputs outside this fragment (exponents,
hex, `Infinity`) do not occur in the engine's data and coerce to `NaN`
(`none`). -/
def parseDecimal (s : String) : Option ℚ :=
  let cs := trimChars s.toList
  if cs.isEmpty then some 0 else
  let signed : ℚ × List Char :=
    match cs with
    | '-' :: rest => (-1, rest)
    | '+' :: rest => (1, rest)
    | _ => (1, cs)
  let (intPart, rest) := takeDigits signed.2
  if intPart.isEmpty then none else
  match rest with
  | [] => some (signed.1 * (digitsVal intPart : ℚ))
  | '.' :: rest' =>
    let (fracPart, rest'') := takeDigits rest'
    if fracPart.isEmpty ∨ ¬rest''.isEmpty then none
    else some (signed.1 * ((digitsVal intPart : ℚ) +
      (digitsVal fracPart : ℚ) / (10 : ℚ) ^ fracPart.length))
  | _ => none

/-- Decimal rendering of a rational that is an integer; non-integer numbers
are rendered via `Rat.repr`.  Only used for display strings that the engine
feeds to regex or length tests, never for arithmetic. -/
def numToStr (q : ℚ) : String :=
  if q.den = 1 then toString q.num else toString q

namespace Cell

/-- Model of the JS `String(...)` coercion. -/
def jsString : Cell → String
  | vNull => "null"
  | vUndef => "undefined"
  | vNaN => "NaN"
  | vNum q => numToStr q
  | vStr s => s
  | vBool b => if b then "true" else "false"

/-- Model of the JS `Number(...)` coercion; `none` models `NaN`.
`Number(null) = 0`, `Number(undefined) = NaN`, `Number("") = 0`, booleans
coerce to `0`/`1`. -/
def toNum : Cell → Option ℚ
  | vNull => some 0
  | vUndef => none
  | vNaN => none
  | vNum q => some q
  | vStr s => parseDecimal s
  | vBool b => some (if b then 1 else 0)

/-- Model of the global `isNaN(v)` (which coerces with `Number` first). -/
def jsIsNaN (v : Cell) : Bool := v.toNum.isNone

end Cell

/-- A record (row): a mapping from column name to cell, `vUndef` for absent
columns, as in a JS object. -/
def Record : Type := String → Cell

/-- Functional update of one column of a record; models `copy[column] = x`
performed on a fresh `Object.assign({}, r)` copy. -/
def Record.set (r : Record) (col : String) (x : Cell) : Record :=
  fun c => if c = col then x else r c

/-- Ascending numeric sort, the model of `arr.sort((a, b) => a - b)`. -/
def sortAsc (l : List ℚ) : List ℚ := l.mergeSort (· ≤ ·)

/-- Deduplication keeping the first occurrence of each element, in order:
the model of `new Set(...)` iteration order in JS. -/
def dedupFirst : List String → List String
  | [] => []
  | x :: xs => x :: (dedupFirst xs).filter (fun y => y ≠ x)

/-!
## Transformations (`transformations.js`)

Each transformation is a stateless rule object; `apply(records)` returns
`{records, evidence}`.  Evidence objects are JS objects with a varying set
of fields, modelled as a structure of optional fields (`none` = the key is
absent from the object).
-/

/-- The evidence payload returned by a transformation's `apply`. -/
structure Evidence where
  before_sample : Option (List Cell) := none
  before_records : Option (List Cell) := none
  changed_count : Option ℕ := none
  filled_value : Option Cell := none
  method : Option String := none
  lower : Option ℚ := none
  upper : Option ℚ := none
  flagged_count : Option ℕ := none
  removed_count : Option ℕ := none
  reason : Option String := none
deriving DecidableEq, Repr

/-- The `{records, evidence}` result of a transformation's `apply`. -/
structure TResult where
  records : List Record
  evidence : Evidence

/-- `v === null || v === undefined || v === ""`, the emptiness test used by
`CoerceNumeric`, `CoerceDatetime` and `FillMissing`. -/
def isEmptyish (v : Cell) : Bool :=
  v == Cell.vNull || v == Cell.vUndef || v == Cell.vStr ""

namespace CoerceNumeric

/-- Parameters `{ column }` of `CoerceNumeric`. -/
structure Params where
  column : String

/-- One cell of `CoerceNumeric.apply`:
`num = v === null || v === undefined || v === "" ? null : Number(v)`. -/
def numOf (v : Cell) : Cell :=
  if isEmptyish v then Cell.vNull
  else match Cell.toNum v with
    | some q => Cell.vNum q
    | none => Cell.vNaN

/-- The per-cell increment of `changed`:
`if (v !== num && !(v === null && num === null)) changed += (num === v ? 0 : 1)`. -/
def changeInc (v : Cell) : ℕ :=
  let num := numOf v
  if ¬(Cell.jsEq v num) ∧ ¬(Cell.jsEq v Cell.vNull ∧ Cell.jsEq num Cell.vNull) then
    (if Cell.jsEq num v then 0 else 1)
  else 0

/-- The written-back cell: `copy[column] = isNaN(num) ? null : num`. -/
def outCell (v : Cell) : Cell :=
  let num := numOf v
  if Cell.jsIsNaN num then Cell.vNull else num

/-- `CoerceNumeric.apply(records)`. -/
def apply (p : Params) (records : List Record) : TResult :=
  let beforeSample := (records.take 5).map (fun r => r p.column)
  let changed := (records.map (fun r => changeInc (r p.column))).sum
  let newRecords := records.map (fun r => Record.set r p.column (outCell (r p.column)))
  { records := newRecords
    evidence := { before_sample := some beforeSample, changed_count := some changed } }

end CoerceNumeric

namespace CoerceDatetime

/-- Parameters `{ column }` of `CoerceDatetime`. -/
structure Params where
  column : String

/-- Whether processing cell `v` reaches the expression
`new Date.parse(parsed).toISOString()`, which throws a `TypeError`
(`Date.parse` is not a constructor) as soon as it is evaluated.  It is
evaluated exactly when `isNaN(parsed)` is false, i.e. when `parsed` is
`null` (empty cell: `isNaN(null)` is false since `Number(null) = 0`) or a
successfully parsed timestamp.  `dparse` models the external `Date.parse`
builtin, `none` meaning `NaN`. -/
def cellThrows (dparse : String → Option ℚ) (v : Cell) : Bool :=
  if isEmptyish v then true
  else (dparse (Cell.jsString v)).isSome

/-- `CoerceDatetime.apply(records)`.  The thrown `TypeError` is modelled as
`Except.error`; in the non-throwing case every processed cell has an
unparseable non-empty value, so `out = null` and
`String(parsed) = "NaN" !== "null" = String(out)` increments `changed` for
every record. -/
def apply (dparse : String → Option ℚ) (p : Params) (records : List Record) :
    Except String TResult :=
  if records.any (fun r => cellThrows dparse (r p.column)) then
    .error "TypeError: Date.parse is not a constructor"
  else
    .ok { records := records.map (fun r => Record.set r p.column Cell.vNull)
          evidence := { before_sample := some ((records.take 5).map (fun r => r p.column))
                        changed_count := some records.length } }

end CoerceDatetime

namespace FillMissing

/-- Parameters `{ column, strategy, value }` of `FillMissing`; a `none`
strategy models an absent key, which the destructuring defaults to
`"mean"`. -/
structure Params where
  column : String
  strategy : Option String
  value : Cell

/-- The count of occurrences of a string key in the stringified values, the
model of the `freq` table. -/
def modeKey (keys : List String) (allKeys : List String) : Option String :=
  keys.foldl (fun best k =>
    match best with
    | none => some k
    | some b => if allKeys.count k > allKeys.count b then some k else best) none

/-- The single fill value computed from the non-empty values.  `mode`
returns the most frequent value as a string, because JS object keys are
strings; ties keep the earlier key (stable sort over the frequency table,
whose keys are modelled in first-insertion order). -/
def fillValueOf (strategy : String) (vals : List Cell) (value : Cell) : Cell :=
  if strategy = "mean" then
    let nums := vals.filterMap Cell.toNum
    if nums.length ≠ 0 then Cell.vNum (nums.sum / (nums.length : ℚ)) else Cell.vNull
  else if strategy = "median" then
    let nums := sortAsc (vals.filterMap Cell.toNum)
    if nums.length ≠ 0 then Cell.vNum (nums.getD (nums.length / 2) 0) else Cell.vNull
  else if strategy = "mode" then
    let keys := (vals.map Cell.jsString)
    match modeKey (dedupFirst keys) keys with
    | some k => Cell.vStr k
    | none => Cell.vNull
  else value

/-- `FillMissing.apply(records)`. -/
def apply (p : Params) (records : List Record) : TResult :=
  let strategy := p.strategy.getD "mean"
  let vals := (records.map (fun r => r p.column)).filter (fun v => ¬ isEmptyish v)
  let fillValue := fillValueOf strategy vals p.value
  let beforeRecords := (records.take 5).map (fun r => r p.column)
  let changed := (records.map (fun r => r p.column)).countP (fun v => isEmptyish v)
  let newRecords := records.map (fun r =>
    if isEmptyish (r p.column) then Record.set r p.column fillValue else r)
  { records := newRecords
    evidence := { before_records := some beforeRecords
                  changed_count := some changed
                  filled_value := some fillValue } }

end FillMissing

/-- `Q1`: the sorted value at index `Math.floor(n * 0.25) = n / 4`
(nearest-rank, zero-based; `n * 0.25` is exact in binary floating point). -/
def q1Of (sorted : List ℚ) : ℚ := sorted.getD (sorted.length / 4) 0

/-- `Q3`: the sorted value at index `Math.floor(n * 0.75) = 3 * n / 4`. -/
def q3Of (sorted : List ℚ) : ℚ := sorted.getD (3 * sorted.length / 4) 0

namespace ClipOutliersIQR

/-- Parameters `{ column, k, method, flag_column_name }` of
`ClipOutliersIQR`; `none` models an absent key, defaulted at `apply` time
(`k = 1.5`, `method = "clip"`, `flag_column_name = "_outliers"`). -/
structure Params where
  column : String
  k : Option ℚ
  method : Option String
  flag_column_name : Option String

/-- The constructed transformation object `{name, params, destructive}`. -/
structure Meta where
  name : String
  params : Params
  destructive : Bool

/-- The constructor: `destructive = params.method === "remove"`, fixed at
construction time. -/
def mkTransformation (params : Params) : Meta :=
  { name := "clip_outliers_iqr", params := params
    destructive := params.method == some "remove" }

/-- The numeric values of the column:
`records.map(r => { const v = Number(r[column]); return isNaN(v) ? null : v }).filter(x => x !== null)`. -/
def numsOf (col : String) (records : List Record) : List ℚ :=
  records.filterMap (fun r => Cell.toNum (r col))

/-- `lower = q1 - k * iqr`. -/
def lowerOf (k : ℚ) (sorted : List ℚ) : ℚ :=
  q1Of sorted - k * (q3Of sorted - q1Of sorted)

/-- `upper = q1 + k * iqr` — the source computes the upper bound from `q1`
(line `const upper = q1 + k * iqr`), not from `q3`. -/
def upperOf (k : ℚ) (sorted : List ℚ) : ℚ :=
  q1Of sorted + k * (q3Of sorted - q1Of sorted)

/-- Whether a cell is clipped/flagged/removed: numeric and outside the
bounds. -/
def outOfBounds (lower upper : ℚ) (v : Cell) : Bool :=
  match Cell.toNum v with
  | some x => x < lower ∨ x > upper
  | none => false

/-- `ClipOutliersIQR.apply(records)`. -/
def apply (p : Params) (records : List Record) : TResult :=
  let column := p.column
  let k := p.k.getD (3 / 2)
  let method := p.method.getD "clip"
  let flagCol := p.flag_column_name.getD "_outliers"
  let nums := numsOf column records
  if nums.length < 5 then
    { records := records, evidence := { reason := some "not_enough_numeric" } }
  else
    let sorted := sortAsc nums
    let lower := lowerOf k sorted
    let upper := upperOf k sorted
    if method = "clip" then
      let newRecords := records.map (fun r =>
        match Cell.toNum (r column) with
        | some x =>
          if x < lower ∨ x > upper then
            Record.set r column (Cell.vNum (max (min x upper) lower))
          else r
        | none => r)
      let changed := records.countP (fun r => outOfBounds lower upper (r column))
      { records := newRecords
        evidence := { method := some method, lower := some lower, upper := some upper
                      changed_count := some changed } }
    else if method = "flag" then
      let flagVal := fun (r : Record) =>
        if outOfBounds lower upper (r column) then Cell.vBool true
        else if Cell.truthy (r flagCol) then r flagCol else Cell.vBool false
      let newRecords := records.map (fun r => Record.set r flagCol (flagVal r))
      let changed := records.countP (fun r => Cell.truthy (flagVal r))
      { records := newRecords
        evidence := { method := some method, lower := some lower, upper := some upper
                      flagged_count := some changed } }
    else if method = "remove" then
      let kept := records.filter (fun r =>
        match Cell.toNum (r column) with
        | none => true
        | some x => lower ≤ x ∧ x ≤ upper)
      { records := kept
        evidence := { method := some method, lower := some lower, upper := some upper
                      removed_count := some (records.length - kept.length) } }
    else
      { records := records, evidence := { reason := some "unknown_method" } }

end ClipOutliersIQR

/-!
## Analyzer (`Analyzer.js`)

The Analyzer operates on a danfo DataFrame; the engine only reads the
column list, per-column value arrays (`_seriesValues`) and per-row value
arrays (`df.values`), so the dataset is modelled as a column list plus a
record list.  The `uuid` and timestamp fields of an emitted issue are
fresh external identifiers with no bearing on any claim and are omitted
from the issue model.  `Date.parse` (`dateOk`, true = parseable) and the
Fuse.js fuzzy search (`fsearch`, scored matches over the unique-value
index) are external builtins modelled as parameters.
-/

namespace Analyzer

/-- The dataset: ordered records sharing one column set. -/
structure Dataset where
  columns : List String
  records : List Record

/-- `_seriesValues(this.df[col])`: the column's value array. -/
def seriesValues (df : Dataset) (col : String) : List Cell :=
  df.records.map (fun r => r col)

/-- One row of `df.values`: the record's cells in column order. -/
def rowCells (df : Dataset) (r : Record) : List Cell :=
  df.columns.map (fun c => r c)

/-- The evidence payload of an Analyzer issue (optional fields, `none` =
key absent). -/
structure AEvidence where
  missingPct : Option ℚ := none
  missingFraction : Option ℚ := none
  count : Option ℕ := none
  unique_fraction : Option ℚ := none
  lower : Option ℚ := none
  upper : Option ℚ := none
  failed_fraction : Option ℚ := none
  clusters : Option (List (List String)) := none
  examples : Option (List Cell) := none
deriving DecidableEq, Repr

/-- An emitted issue (the `issue(...)` helper, without the external
`uuid`/timestamp fields). -/
structure AIssue where
  scope : String
  column : Option String
  rows : List ℕ
  issue_type : String
  severity : String
  score : ℚ
  evidence : AEvidence
  suggestedFix : Option String
deriving DecidableEq, Repr

/-- The filter used for non-null values:
`v !== null && v !== undefined && String(v).trim() !== ""`. -/
def keepNonNull (v : Cell) : Bool :=
  !(v == Cell.vNull) && !(v == Cell.vUndef) && !(jsTrim (Cell.jsString v) == "")

/-- `^\d{4,}$`: a bare digit string of length at least 4 (a plain year). -/
def isBareDigits (s : String) : Bool :=
  decide (s.toList.length ≥ 4) && s.toList.all Char.isDigit

/-- `^[-+]?\d+(?:\.\d+)?$`. -/
def isStrictNumber (s : String) : Bool :=
  let cs := s.toList
  let body := match cs with
    | '-' :: rest => rest
    | '+' :: rest => rest
    | _ => cs
  let (ip, rest) := takeDigits body
  !ip.isEmpty &&
    (match rest with
     | [] => true
     | '.' :: rest' =>
       let (fp, rest'') := takeDigits rest'
       !fp.isEmpty && rest''.isEmpty
     | _ => false)

/-- `inferColumnType`: empty, else date ratio `≥ 0.9` over the 300-value
sample, else numeric ratio `≥ 0.9`, else string. -/
def inferColumnType (dateOk : String → Bool) (vals : List Cell) : String :=
  let nonNull := vals.filter keepNonNull
  if nonNull.isEmpty then "empty"
  else
    let sample := (nonNull.take 300).map (fun v => jsTrim (Cell.jsString v))
    let isValidDate := fun (v : String) => if isBareDigits v then false else dateOk v
    let dateCount := sample.countP isValidDate
    if decide (sample.length > 0) && decide ((dateCount : ℚ) / (sample.length : ℚ) ≥ 9 / 10) then
      "datetime"
    else
      let numCount := sample.countP isStrictNumber
      if decide (sample.length > 0) && decide ((numCount : ℚ) / (sample.length : ℚ) ≥ 9 / 10) then
        "numeric"
      else "string"

/-- `isMissing(v)` of `detectMissing`: null, undefined, empty after
trimming, a NaN-typed number, or a trimmed lowercase sentinel in
`{na, n/a, -, null}`. -/
def isMissingCell (v : Cell) : Bool :=
  v == Cell.vNull || v == Cell.vUndef || jsTrim (Cell.jsString v) == "" ||
  (match v with
   | Cell.vNaN => true
   | Cell.vStr s => jsLower (jsTrim s) ∈ ["na", "n/a", "-", "null"]
   | _ => false)

/-- Column-level missingness: one issue per column with
`missing_pct ≥ 0.2`, score `missing_pct`, first five missing row indices. -/
def detectMissingCol (df : Dataset) (col : String) : List AIssue :=
  let s := seriesValues df col
  let missingCount := s.countP isMissingCell
  let missingRowIdx := ((s.enum.filter (fun p => isMissingCell p.2)).map (fun p => p.1)).take 5
  let missingPct : ℚ := if s.length = 0 then 0 else (missingCount : ℚ) / (s.length : ℚ)
  if missingPct ≥ 1 / 5 then
    [⟨"column", some col, missingRowIdx, "missing_values",
      if missingPct > 1 / 2 then "high" else "medium", missingPct,
      { missingPct := some missingPct }, some "impute_or_drop"⟩]
  else []

/-- Row-level missingness: one issue per row with missing fraction
`≥ 0.5`.  The source divides with no zero guard; with zero columns JS
yields `NaN ≥ 0.5 = false` and the model `0 / 0 = 0 ≥ 1/2 = false`, the
same emission behaviour. -/
def detectMissingRow (df : Dataset) : List AIssue :=
  df.records.enum.filterMap (fun p =>
    let vals := rowCells df p.2
    let missingFraction : ℚ := (vals.countP isMissingCell : ℚ) / (vals.length : ℚ)
    if missingFraction ≥ 1 / 2 then
      some ⟨"row", none, [p.1], "row_sparsity", "high", missingFraction,
        { missingFraction := some missingFraction }, some "drop_or_review"⟩
    else none)

/-- `detectMissing()`: all column-level issues, then all row-level issues. -/
def detectMissing (df : Dataset) : List AIssue :=
  (df.columns.map (detectMissingCol df)).flatten ++ detectMissingRow df

/-- The indices of rows identical to an earlier row.  The source keys the
seen-set by `JSON.stringify(row)`; equality of stringified rows is
modelled as structural equality of the cell lists (the engine's scalar
cells stringify injectively up to the `NaN ↦ null` collapse, which no
claim depends on). -/
def dupIndices (rows : List (List Cell)) : List ℕ :=
  (rows.enum.filter (fun p => p.2 ∈ rows.take p.1)).map (fun p => p.1)

/-- `detectDuplicatesAndPK()`: one dataset-scope duplicate issue with fixed
score `0.9` if any row repeats, then one `pk_candidate` issue per column
whose distinct non-null fraction is `≥ 0.98`. -/
def detectDuplicatesAndPK (df : Dataset) : List AIssue :=
  let rows := df.records.map (rowCells df)
  let duplicates := dupIndices rows
  let dupIssues : List AIssue :=
    if duplicates.length ≠ 0 then
      [⟨"dataset", none, duplicates.take 10, "exact_duplicates", "high", 9 / 10,
        { count := some duplicates.length }, some "drop_or_merge"⟩]
    else []
  let nRows := df.records.length
  let pkIssues := (df.columns.map (fun col =>
    let vals := (seriesValues df col).filter keepNonNull
    let uniqueCount := (dedupFirst (vals.map Cell.jsString)).length
    let frac : ℚ := if nRows = 0 then 0 else (uniqueCount : ℚ) / (nRows : ℚ)
    if frac ≥ 49 / 50 then
      ([⟨"column", some col, [], "pk_candidate", "low", frac,
        { unique_fraction := some frac }, none⟩] : List AIssue)
    else [])).flatten
  dupIssues ++ pkIssues

/-- The column's numeric values:
`.map(v => Number(v)).filter(x => !Number.isNaN(x))` (note `Number(null)`
is `0` and is kept). -/
def numericValues (df : Dataset) (col : String) : List ℚ :=
  (seriesValues df col).filterMap Cell.toNum

/-- The `(index, value)` pairs flagged by `detectOutliersIQR`: original
values that coerce to a number outside `[lower, upper]`. -/
def outlierPairs (df : Dataset) (col : String) (lower upper : ℚ) : List (ℕ × Cell) :=
  (seriesValues df col).enum.filter (fun p =>
    match Cell.toNum p.2 with
    | some x => decide (x < lower ∨ x > upper)
    | none => false)

/-- The detector's `lower = Q1 - CONFIG.outlier_iqr_k * iqr` with
`CONFIG.outlier_iqr_k = 1.5`. -/
def detLower (df : Dataset) (col : String) : ℚ :=
  let sorted := sortAsc (numericValues df col)
  q1Of sorted - (3 / 2) * (q3Of sorted - q1Of sorted)

/-- The detector's `upper = Q3 + CONFIG.outlier_iqr_k * iqr`. -/
def detUpper (df : Dataset) (col : String) : ℚ :=
  let sorted := sortAsc (numericValues df col)
  q3Of sorted + (3 / 2) * (q3Of sorted - q1Of sorted)

/-- `detectOutliersIQR(col)`: nearest-rank `Q1`/`Q3` over the sorted
numeric values (at least 5 required), `lower = Q1 - 1.5·iqr`,
`upper = Q3 + 1.5·iqr`, one medium issue if any value falls outside. -/
def detectOutliersIssues (df : Dataset) (col : String) : List AIssue :=
  let arr := numericValues df col
  if arr.length < 5 then []
  else
    let lower := detLower df col
    let upper := detUpper df col
    let outliers := outlierPairs df col lower upper
    if outliers.length ≠ 0 then
      [⟨"column", some col, (outliers.take 10).map (fun o => o.1), "outlier_iqr", "medium",
        (outliers.length : ℚ) / (df.records.length : ℚ),
        { lower := some lower, upper := some upper, count := some outliers.length },
        some "review_or_cap"⟩]
    else []

/-- `runOutliers()`: the IQR detector on every column inferred numeric. -/
def runOutliers (dateOk : String → Bool) (df : Dataset) : List AIssue :=
  (df.columns.map (fun col =>
    if inferColumnType dateOk (seriesValues df col) = "numeric" then
      detectOutliersIssues df col
    else [])).flatten

/-- `detectDateParsing()`: on columns inferred datetime, the failure
fraction of `Date.parse` over the first 200 values; issue if `> 0.1`. -/
def detectDateParsing (dateOk : String → Bool) (df : Dataset) : List AIssue :=
  (df.columns.map (fun col =>
    if inferColumnType dateOk (seriesValues df col) ≠ "datetime" then ([] : List AIssue)
    else
      let vals := (seriesValues df col).take 200
      let total := vals.length
      let failures := vals.countP (fun v => !(dateOk (Cell.jsString v)))
      let frac : ℚ := if total = 0 then 0 else (failures : ℚ) / (total : ℚ)
      if frac > 1 / 10 then
        [⟨"column", some col, [], "date_parse_failures",
          if frac > 1 / 2 then "high" else "medium", frac,
          { failed_fraction := some frac }, some "parse_with_formats"⟩]
      else [])).flatten

/-- One step of the clustering loop of `detectCategoricalInconsistency`:
skip an already-used value, otherwise take its match group, mark every
group member used, and record the group as a cluster when it has more
than one member.  The accumulator is `(clusters, used)`. -/
def clusterStep (matchesOf : String → List String)
    (acc : List (List String) × List String) (u : String) :
    List (List String) × List String :=
  if u ∈ acc.2 then acc
  else
    let group := matchesOf u
    (if group.length > 1 then acc.1 ++ [group] else acc.1, acc.2 ++ group)

/-- The whole clustering pass over the distinct values. -/
def clusterPass (matchesOf : String → List String) (uniques : List String) :
    List (List String) × List String :=
  uniques.foldl (clusterStep matchesOf) ([], [])

/-- The match group of one value: the fuzzy matches whose score is below
`1 - categorical_fuzzy_ratio`.  In JS `1 - 0.85` is the double
`0.15000000000000002`; the threshold is modelled as the exact `3/20`,
which no engine score sits on. -/
def matchGroup (fsearch : List String → String → List (String × ℚ))
    (uniques : List String) (u : String) : List String :=
  ((fsearch uniques u).filter (fun m => decide (m.2 < 3 / 20))).map (fun m => m.1)

/-- `detectCategoricalInconsistency()`: on string columns with at most 500
distinct values, one medium issue with fixed score `0.6` when the
clustering pass finds any multi-member cluster. -/
def detectCategoricalInconsistency (dateOk : String → Bool)
    (fsearch : List String → String → List (String × ℚ)) (df : Dataset) : List AIssue :=
  (df.columns.map (fun col =>
    if inferColumnType dateOk (seriesValues df col) ≠ "string" then ([] : List AIssue)
    else
      let uniques := dedupFirst ((seriesValues df col).map Cell.jsString)
      if uniques.length > 500 then []
      else
        let clusters := (clusterPass (matchGroup fsearch uniques) uniques).1
        if clusters.length ≠ 0 then
          [⟨"column", some col, [], "categorical_inconsistency", "medium", 3 / 5,
            { clusters := some (clusters.take 10) }, some "map_or_standardize"⟩]
        else [])).flatten

/-- `detectSuspiciousText()`: on string columns, one low issue with fixed
score `0.6` listing rows whose stringified value exceeds 1000 characters. -/
def detectSuspiciousText (dateOk : String → Bool) (df : Dataset) : List AIssue :=
  (df.columns.map (fun col =>
    if inferColumnType dateOk (seriesValues df col) ≠ "string" then ([] : List AIssue)
    else
      let vals := seriesValues df col
      let longRows := (vals.enum.filter
        (fun p => decide ((Cell.jsString p.2).toList.length > 1000))).map (fun p => p.1)
      if longRows.length ≠ 0 then
        [⟨"column", some col, longRows.take 10, "suspicious_text_long", "low", 3 / 5,
          { examples := some ((longRows.take 3).map (fun i => vals.getD i Cell.vUndef)) },
          some "truncate_or_clean"⟩]
      else [])).flatten

/-- `runAll()`: the seven detectors in fixed order (schema inference emits
no issues), accumulating into one issue list. -/
def runAllIssues (dateOk : String → Bool)
    (fsearch : List String → String → List (String × ℚ)) (df : Dataset) : List AIssue :=
  detectMissing df ++ detectDuplicatesAndPK df ++ runOutliers dateOk df ++
  detectDateParsing dateOk df ++ detectCategoricalInconsistency dateOk fsearch df ++
  detectSuspiciousText dateOk df

end Analyzer

/-!
## Concrete inputs used by witnesses and counterexamples
-/

/-- A one-column record holding `v` in column `"x"`. -/
def recX (v : Cell) : Record := fun c => if c = "x" then v else Cell.vUndef

/-- A record list whose `"x"` column holds `[1, 2, 3, 4, 5, 100]`. -/
def recs6 : List Record :=
  [Cell.vNum 1, Cell.vNum 2, Cell.vNum 3, Cell.vNum 4, Cell.vNum 5, Cell.vNum 100].map recX

/-- The one-column dataset over `recs6`. -/
def df6 : Analyzer.Dataset := ⟨["x"], recs6⟩

/-- A record list whose `"x"` column holds five copies of `5` (zero iqr,
so remove-mode clipping keeps every row). -/
def recs5 : List Record := List.replicate 5 (recX (Cell.vNum 5))

/-- `FillMissing` params with the constant strategy and fill value `0`. -/
def fmConst : FillMissing.Params := ⟨"x", some "constant", Cell.vNum 0⟩

/-- `FillMissing` params with an unknown strategy `"bogus"`. -/
def fmBogus : FillMissing.Params := ⟨"x", some "bogus", Cell.vNum 7⟩

/-- A fuzzy-search oracle over `["a", "b", "c"]` in which `"b"` is similar
to both `"a"` and `"c"` (score `0.1`, below the `0.15` threshold) while
`"a"` and `"c"` are not similar to each other; every value matches itself
with score `0`.  This is an ordinary non-transitive similarity of the kind
Fuse.js produces. -/
def abcSearch : List String → String → List (String × ℚ) := fun _ u =>
  if u = "a" then [("a", 0), ("b", 1 / 10)]
  else if u = "b" then [("b", 0), ("a", 1 / 10), ("c", 1 / 10)]
  else if u = "c" then [("c", 0), ("b", 1 / 10)]
  else []

/-- A record holding `v` in the string column `"s"`. -/
def recS (v : Cell) : Record := fun c => if c = "s" then v else Cell.vUndef

/-- The one-column string dataset with values `["a", "b", "c"]`. -/
def dfABC : Analyzer.Dataset :=
  ⟨["s"], [Cell.vStr "a", Cell.vStr "b", Cell.vStr "c"].map recS⟩

/-- A record list whose `"x"` column holds `[null, null, 1, 2, 3]`. -/
def recs9 : List Record :=
  [Cell.vNull, Cell.vNull, Cell.vNum 1, Cell.vNum 2, Cell.vNum 3].map recX

/-- The one-column dataset over `recs9` (40% missing in column `"x"`). -/
def df9 : Analyzer.Dataset := ⟨["x"], recs9⟩

/-- The `missing_values` issue `df9` produces. -/
def df9Issue : Analyzer.AIssue :=
  ⟨"column", some "x", [0, 1], "missing_values", "medium", 2 / 5,
    { missingPct := some (2 / 5) }, some "impute_or_drop"⟩

/-!
## Theorems

General lemmas first, then one theorem per claim (with its witness or
counterexample where required).
-/

theorem sortAsc_length (l : List ℚ) : (sortAsc l).length = l.length :=
  (List.mergeSort_perm l (· ≤ ·)).length_eq

theorem Record.set_same (r : Record) (col : String) (x : Cell) :
    Record.set r col x col = x := by
  simp [Record.set]

theorem Record.set_other (r : Record) (col : String) (x : Cell) {c : String}
    (h : c ≠ col) : Record.set r col x c = r c := by
  simp [Record.set, h]

/-- **C8.** A `ClipOutliersIQR` instance is destructive exactly when its
`method` parameter is `"remove"`; any other method (in particular `"clip"`
and `"flag"`) gives `destructive = false`.  The flag is computed inside the
constructor from `params` alone, and `apply` returns only records and
evidence, so nothing ever rewrites it. -/
theorem clip_destructive_iff_remove (p : ClipOutliersIQR.Params) :
    (ClipOutliersIQR.mkTransformation p).destructive = true ↔ p.method = some "remove" := by
  simp [ClipOutliersIQR.mkTransformation]

theorem changeInc_vNull : CoerceNumeric.changeInc Cell.vNull = 0 := by decide

theorem changeInc_vNum (q : ℚ) : CoerceNumeric.changeInc (Cell.vNum q) = 0 := by
  simp [CoerceNumeric.changeInc, CoerceNumeric.numOf, isEmptyish, Cell.toNum, Cell.jsEq]

/-- After one pass, a coerced cell is `null` or a (non-NaN) number. -/
theorem outCell_cases (v : Cell) :
    CoerceNumeric.outCell v = Cell.vNull ∨ ∃ q, CoerceNumeric.outCell v = Cell.vNum q := by
  unfold CoerceNumeric.outCell CoerceNumeric.numOf
  by_cases h : isEmptyish v = true
  · simp [h, Cell.jsIsNaN, Cell.toNum]
  · simp only [h]
    cases hq : Cell.toNum v with
    | none => simp [Cell.jsIsNaN, Cell.toNum]
    | some q => exact Or.inr ⟨q, by simp [Cell.jsIsNaN, Cell.toNum]⟩

theorem changeInc_outCell (v : Cell) :
    CoerceNumeric.changeInc (CoerceNumeric.outCell v) = 0 := by
  rcases outCell_cases v with h | ⟨q, h⟩ <;> rw [h]
  · exact changeInc_vNull
  · exact changeInc_vNum q

/-- **C7.** `CoerceNumeric` is idempotent in its evidence: re-applying it
(with the same parameters) to the records a first application produced
reports `changed_count = 0`, because the first pass leaves the column
holding only `null` or non-NaN numbers and the change test
`v !== num && !(v === null && num === null)` rejects both. -/
theorem coerceNumeric_idempotent (p : CoerceNumeric.Params) (records : List Record) :
    (CoerceNumeric.apply p (CoerceNumeric.apply p records).records).evidence.changed_count =
      some 0 := by
  simp only [CoerceNumeric.apply, List.map_map, Option.some.injEq]
  have h : (fun r : Record => CoerceNumeric.changeInc (r p.column)) ∘
      (fun r : Record => Record.set r p.column (CoerceNumeric.outCell (r p.column))) =
      fun r : Record => CoerceNumeric.changeInc (CoerceNumeric.outCell (r p.column)) := by
    funext r
    simp [Record.set_same]
  rw [h]
  have hz : ∀ r ∈ records,
      CoerceNumeric.changeInc (CoerceNumeric.outCell (r p.column)) = 0 := fun r _ =>
    changeInc_outCell (r p.column)
  calc (records.map fun r => CoerceNumeric.changeInc (CoerceNumeric.outCell (r p.column))).sum
      = (records.map fun _ => (0 : ℕ)).sum := by
        rw [List.map_congr_left hz]
    _ = 0 := by simp

/-- **C2** fails on the code: `ClipOutliersIQR.apply` computes
`upper = Q1 + k·iqr` (line `const upper = q1 + k * iqr`), not the
detector's `Q3 + k·iqr`.  On the column `[1, 2, 3, 4, 5, 100]` with the
default `k = 1.5` both compute `Q1 = 2`, `Q3 = 5`, `iqr = 3`, and the same
`lower = -2.5`, but the transformation's upper bound is `6.5` while the
4.3 detector emits `9.5`. -/
theorem clip_upper_uses_q1 :
    (ClipOutliersIQR.apply ⟨"x", none, some "clip", none⟩ recs6).evidence.upper =
        some (13 / 2) ∧
    (ClipOutliersIQR.apply ⟨"x", none, some "clip", none⟩ recs6).evidence.lower =
        some (-(5 / 2)) ∧
    (Analyzer.detectOutliersIssues df6 "x").map (fun i => i.evidence.upper) =
        [some (19 / 2)] ∧
    (13 / 2 : ℚ) ≠ (19 / 2 : ℚ) := by
  refine ⟨?_, ?_, ?_, ?_⟩ <;> with_unfolding_all decide

/-- **C3** fails on the code: `"NA"` is missing under the detector's
`isMissing` (trimmed lowercase sentinel `na`), yet `FillMissing` — whose
test is only `v === null || v === undefined || v === ""` — leaves the cell
unreplaced and reports `changed_count = 0`. -/
theorem fillMissing_skips_na_sentinel :
    Analyzer.isMissingCell (Cell.vStr "NA") = true ∧
    (FillMissing.apply fmConst [recX (Cell.vStr "NA")]).records.map (fun r => r "x") =
        [Cell.vStr "NA"] ∧
    (FillMissing.apply fmConst [recX (Cell.vStr "NA")]).evidence.changed_count = some 0 := by
  refine ⟨by decide, ?_, by decide⟩
  simp [FillMissing.apply, fmConst, recX, isEmptyish]

/-- **C3 (amended).** `FillMissing.apply` replaces exactly the cells that
are strictly `null`, `undefined` or the empty string (no trimming; NaN
numbers and sentinel strings such as `"NA"` are not replaced) with the
computed fill value, touches no other column, and `changed_count` counts
exactly those cells. -/
theorem fillMissing_replaces_exactly_emptyish (p : FillMissing.Params)
    (records : List Record) :
    ((FillMissing.apply p records).evidence.changed_count =
        some ((records.map (fun r => r p.column)).countP isEmptyish)) ∧
    (∀ i : ℕ, (FillMissing.apply p records).records[i]?.map (fun r => r p.column) =
        records[i]?.map (fun r =>
          if isEmptyish (r p.column) then
            FillMissing.fillValueOf (p.strategy.getD "mean")
              ((records.map (fun r' => r' p.column)).filter (fun v => ¬ isEmptyish v))
              p.value
          else r p.column)) ∧
    (∀ i : ℕ, ∀ c : String, c ≠ p.column →
        (FillMissing.apply p records).records[i]?.map (fun r => r c) =
          records[i]?.map (fun r => r c)) := by
  refine ⟨rfl, ?_, ?_⟩
  · intro i
    simp only [FillMissing.apply, List.getElem?_map]
    cases records[i]? with
    | none => rfl
    | some r =>
      simp only [Option.map_some']
      split
      · simp [Record.set_same]
      · rfl
  · intro i c hc
    simp only [FillMissing.apply, List.getElem?_map]
    cases records[i]? with
    | none => rfl
    | some r =>
      simp only [Option.map_some']
      split
      · simp [Record.set_other _ _ _ hc]
      · rfl

theorem fillMissing_replaces_exactly_emptyish_witness :
    ("y" : String) ≠ "x" ∧
    (FillMissing.apply fmConst [recX Cell.vNull]).records[0]?.map (fun r => r "y") =
      [recX Cell.vNull][0]?.map (fun r => r "y") :=
  ⟨by decide,
    (fillMissing_replaces_exactly_emptyish fmConst [recX Cell.vNull]).2.2 0 "y" (by decide)⟩

/-- **C4** fails on the code: with an unknown strategy `FillMissing.apply`
indeed never throws, but it reports no `{reason: ...}` evidence — the
`if/else if` chain silently falls through to the constant behaviour and
returns ordinary evidence whose `reason` key is absent, here on
`strategy = "bogus"` over a single `null` cell (which is filled with
`params.value` and counted). -/
theorem fillMissing_unknown_strategy_no_reason :
    (FillMissing.apply fmBogus [recX Cell.vNull]).evidence.reason = none ∧
    (FillMissing.apply fmBogus [recX Cell.vNull]).evidence.changed_count = some 1 ∧
    (FillMissing.apply fmBogus [recX Cell.vNull]).evidence.filled_value =
      some (Cell.vNum 7) := by
  refine ⟨rfl, by decide, by decide⟩

/-- **C4 (amended).** `FillMissing` constructed with a strategy outside
`{mean, median, mode, constant}` never throws: `apply` behaves exactly as
with `strategy = "constant"` (filling every strictly-empty cell with
`params.value`), and the returned evidence is the ordinary
`before_records`/`changed_count`/`filled_value` payload with no
`{reason: ...}` field, so the pipeline continues. -/
theorem fillMissing_unknown_strategy_acts_constant (p : FillMissing.Params) (s : String)
    (records : List Record) (hs : p.strategy = some s)
    (h1 : s ≠ "mean") (h2 : s ≠ "median") (h3 : s ≠ "mode") :
    FillMissing.apply p records =
        FillMissing.apply ⟨p.column, some "constant", p.value⟩ records ∧
    (FillMissing.apply p records).evidence.reason = none := by
  have hv : ∀ vals, FillMissing.fillValueOf s vals p.value = p.value := by
    intro vals
    unfold FillMissing.fillValueOf
    rw [if_neg h1, if_neg h2, if_neg h3]
  have hcst : ∀ vals, FillMissing.fillValueOf "constant" vals p.value = p.value := by
    intro vals
    unfold FillMissing.fillValueOf
    rw [if_neg (by decide), if_neg (by decide), if_neg (by decide)]
  constructor
  · unfold FillMissing.apply
    rw [hs]
    simp only [Option.getD_some, hv, hcst]
  · unfold FillMissing.apply
    rfl

theorem fillMissing_unknown_strategy_acts_constant_witness :
    fmBogus.strategy = some "bogus" ∧
    (FillMissing.apply fmBogus [recX Cell.vNull]).evidence.reason = none :=
  ⟨rfl, (fillMissing_unknown_strategy_acts_constant fmBogus "bogus" [recX Cell.vNull]
    rfl (by decide) (by decide) (by decide)).2⟩

/-- A model `Date.parse` that parses exactly the string `"2024-01-02"`. -/
def dparse1 : String → Option ℚ := fun s =>
  if s = "2024-01-02" then some 1704153600000 else none

/-- **C10** fails on the code for `CoerceDatetime`: the expression
`new Date.parse(parsed).toISOString()` invokes `Date.parse` as a
constructor and throws a `TypeError` whenever it is evaluated, which
happens for every empty cell (`parsed = null`, and `isNaN(null)` is false)
and for every date-parseable cell.  So instead of returning a record list
of the input's length, `apply` returns nothing at all on such inputs —
here a single `null` cell and a single parseable date cell. -/
theorem coerceDatetime_throws :
    CoerceDatetime.apply (fun _ => none) ⟨"x"⟩ [recX Cell.vNull] =
        Except.error "TypeError: Date.parse is not a constructor" ∧
    CoerceDatetime.apply dparse1 ⟨"x"⟩ [recX (Cell.vStr "2024-01-02")] =
        Except.error "TypeError: Date.parse is not a constructor" := by
  constructor <;> rfl

/-- **C6** fails as stated on two points, exhibited at concrete inputs:
remove-mode clipping can keep every record (on five copies of `5` the iqr
is `0` and nothing is out of bounds, so the result is not a strict
subset), and `CoerceDatetime` throws instead of returning fresh copies
whenever a cell is empty or date-parseable. -/
theorem apply_mutation_claim_false :
    (ClipOutliersIQR.apply ⟨"x", none, some "remove", none⟩ recs5).records.length = 5 ∧
    recs5.length = 5 ∧
    CoerceDatetime.apply (fun _ => none) ⟨"x"⟩ [recX Cell.vNull] =
        Except.error "TypeError: Date.parse is not a constructor" := by
  refine ⟨by with_unfolding_all decide, by decide, rfl⟩

theorem map_pointwise (f : Record → Record) (c : String) (hf : ∀ r, f r c = r c)
    (recs : List Record) (i : ℕ) :
    (recs.map f)[i]?.map (fun r => r c) = recs[i]?.map (fun r => r c) := by
  rw [List.getElem?_map]
  cases recs[i]? <;> simp [hf]

/-- **C6 (amended).** The transformations are pure functions of the input
record list (the embedding is value-level, which is what freshness of the
copies amounts to observationally): `CoerceNumeric`, `FillMissing`, and
clip- and flag-mode `ClipOutliersIQR` return a list of the same length in
which each record agrees with the corresponding input record on every
column other than the target column (for flag mode, other than the flag
column); remove-mode clipping returns a subsequence of the original
records, not necessarily strict; and `CoerceDatetime`, whenever it returns
instead of throwing, likewise returns a same-length list agreeing outside
the target column. -/
theorem apply_frame_effects (recs : List Record) :
    (∀ p : CoerceNumeric.Params,
      (CoerceNumeric.apply p recs).records.length = recs.length ∧
      ∀ i : ℕ, ∀ c : String, c ≠ p.column →
        (CoerceNumeric.apply p recs).records[i]?.map (fun r => r c) =
          recs[i]?.map (fun r => r c)) ∧
    (∀ p : FillMissing.Params,
      (FillMissing.apply p recs).records.length = recs.length ∧
      ∀ i : ℕ, ∀ c : String, c ≠ p.column →
        (FillMissing.apply p recs).records[i]?.map (fun r => r c) =
          recs[i]?.map (fun r => r c)) ∧
    (∀ p : ClipOutliersIQR.Params, p.method.getD "clip" = "clip" →
      (ClipOutliersIQR.apply p recs).records.length = recs.length ∧
      ∀ i : ℕ, ∀ c : String, c ≠ p.column →
        (ClipOutliersIQR.apply p recs).records[i]?.map (fun r => r c) =
          recs[i]?.map (fun r => r c)) ∧
    (∀ p : ClipOutliersIQR.Params, p.method = some "flag" →
      (ClipOutliersIQR.apply p recs).records.length = recs.length ∧
      ∀ i : ℕ, ∀ c : String, c ≠ p.flag_column_name.getD "_outliers" →
        (ClipOutliersIQR.apply p recs).records[i]?.map (fun r => r c) =
          recs[i]?.map (fun r => r c)) ∧
    (∀ p : ClipOutliersIQR.Params, p.method = some "remove" →
      (ClipOutliersIQR.apply p recs).records.Sublist recs) ∧
    (∀ dparse : String → Option ℚ, ∀ p : CoerceDatetime.Params, ∀ res : TResult,
      CoerceDatetime.apply dparse p recs = Except.ok res →
      res.records.length = recs.length ∧
      ∀ i : ℕ, ∀ c : String, c ≠ p.column →
        res.records[i]?.map (fun r => r c) = recs[i]?.map (fun r => r c)) := by
  refine ⟨?_, ?_, ?_, ?_, ?_, ?_⟩
  · intro p
    refine ⟨by simp [CoerceNumeric.apply], ?_⟩
    intro i c hc
    exact map_pointwise _ c (fun r => Record.set_other _ _ _ hc) recs i
  · intro p
    refine ⟨by simp [FillMissing.apply], ?_⟩
    intro i c hc
    refine map_pointwise _ c (fun r => ?_) recs i
    dsimp only
    split
    · exact Record.set_other _ _ _ hc
    · rfl
  · intro p hm
    unfold ClipOutliersIQR.apply
    rw [hm]
    simp only [if_pos rfl]
    split
    · exact ⟨rfl, fun i c hc => rfl⟩
    · refine ⟨by simp, ?_⟩
      intro i c hc
      refine map_pointwise _ c (fun r => ?_) recs i
      dsimp only
      cases hv : (r p.column).toNum with
      | none => rfl
      | some x =>
        dsimp only
        rw [apply_ite (fun g : Record => g c)]
        simp [Record.set_other _ _ _ hc]
  · intro p hm
    unfold ClipOutliersIQR.apply
    rw [hm]
    simp only [Option.getD_some, if_neg (by decide : ¬("flag" : String) = "clip"), if_pos rfl]
    split
    · exact ⟨rfl, fun i c hc => rfl⟩
    · refine ⟨by simp, ?_⟩
      intro i c hc
      exact map_pointwise _ c (fun r => Record.set_other _ _ _ hc) recs i
  · intro p hm
    unfold ClipOutliersIQR.apply
    rw [hm]
    simp only [Option.getD_some, if_neg (by decide : ¬("remove" : String) = "clip"),
      if_neg (by decide : ¬("remove" : String) = "flag"), if_pos rfl]
    split
    · exact List.Sublist.refl recs
    · exact List.filter_sublist recs
  · intro dparse p res h
    unfold CoerceDatetime.apply at h
    split at h
    · cases h
    · cases h
      refine ⟨by simp, ?_⟩
      intro i c hc
      exact map_pointwise _ c (fun r => Record.set_other _ _ _ hc) recs i

theorem apply_frame_effects_witness :
    ("y" : String) ≠ "x" ∧
    (CoerceNumeric.apply ⟨"x"⟩ recs6).records[0]?.map (fun r => r "y") =
        recs6[0]?.map (fun r => r "y") ∧
    (ClipOutliersIQR.apply ⟨"x", none, some "remove", none⟩ recs6).records.Sublist recs6 :=
  ⟨by decide,
    ((apply_frame_effects recs6).1 ⟨"x"⟩).2 0 "y" (by decide),
    (apply_frame_effects recs6).2.2.2.2.1 ⟨"x", none, some "remove", none⟩ rfl⟩

theorem floor_quarter (n : ℕ) : Nat.floor ((n : ℚ) * (25 / 100)) = n / 4 := by
  have h : (n : ℚ) * (25 / 100) = (n : ℚ) / ((4 : ℕ) : ℚ) := by push_cast; ring
  rw [h, Nat.floor_div_nat, Nat.floor_natCast]

theorem floor_three_quarters (n : ℕ) : Nat.floor ((n : ℚ) * (75 / 100)) = 3 * n / 4 := by
  have h : (n : ℚ) * (75 / 100) = ((3 * n : ℕ) : ℚ) / ((4 : ℕ) : ℚ) := by push_cast; ring
  rw [h, Nat.floor_div_nat, Nat.floor_natCast]

/-- **C1.** On a column with at least five numeric values the IQR detector
takes `Q1` and `Q3` at the nearest-rank indices `floor(0.25·n)` and
`floor(0.75·n)` of the ascending sort, uses the bounds
`lower = Q1 - 1.5·iqr` and `upper = Q3 + 1.5·iqr` (the upper bound is
`Q3 + k·iqr`, correctly signed), and flags exactly the original values
that coerce to a number outside `[lower, upper]`; an issue is emitted if
and only if some value is flagged, and it carries those bounds and the
first ten flagged row indices. -/
theorem detectOutliersIQR_spec (df : Analyzer.Dataset) (col : String)
    (h5 : 5 ≤ (Analyzer.numericValues df col).length) :
    ((sortAsc (Analyzer.numericValues df col)).length / 4 =
        Nat.floor (((sortAsc (Analyzer.numericValues df col)).length : ℚ) * (25 / 100)) ∧
      3 * (sortAsc (Analyzer.numericValues df col)).length / 4 =
        Nat.floor (((sortAsc (Analyzer.numericValues df col)).length : ℚ) * (75 / 100))) ∧
    (∀ issue ∈ Analyzer.detectOutliersIssues df col,
      issue.evidence.lower = some (Analyzer.detLower df col) ∧
      issue.evidence.upper = some (Analyzer.detUpper df col) ∧
      issue.rows = ((Analyzer.outlierPairs df col (Analyzer.detLower df col)
        (Analyzer.detUpper df col)).take 10).map (fun o => o.1)) ∧
    (∀ i : ℕ, ∀ v : Cell,
      ((i, v) ∈ Analyzer.outlierPairs df col (Analyzer.detLower df col)
          (Analyzer.detUpper df col)) ↔
        ((Analyzer.seriesValues df col)[i]? = some v ∧
          ∃ x : ℚ, v.toNum = some x ∧
            (x < Analyzer.detLower df col ∨ x > Analyzer.detUpper df col))) ∧
    (Analyzer.detectOutliersIssues df col ≠ [] ↔
      Analyzer.outlierPairs df col (Analyzer.detLower df col)
        (Analyzer.detUpper df col) ≠ []) := by
  refine ⟨⟨(floor_quarter _).symm, (floor_three_quarters _).symm⟩, ?_, ?_, ?_⟩
  · intro issue hmem
    unfold Analyzer.detectOutliersIssues at hmem
    rw [if_neg (Nat.not_lt.mpr h5)] at hmem
    simp only [] at hmem
    split at hmem
    · rw [List.mem_singleton] at hmem
      subst hmem
      exact ⟨rfl, rfl, rfl⟩
    · simp at hmem
  · intro i v
    unfold Analyzer.outlierPairs
    rw [List.mem_filter, List.mk_mem_enum_iff_getElem?]
    constructor
    · rintro ⟨hget, hp⟩
      refine ⟨hget, ?_⟩
      cases hv : v.toNum with
      | none => rw [hv] at hp; cases hp
      | some x =>
        rw [hv] at hp
        exact ⟨x, rfl, of_decide_eq_true hp⟩
    · rintro ⟨hget, x, hx, hout⟩
      refine ⟨hget, ?_⟩
      rw [hx]
      exact decide_eq_true hout
  · unfold Analyzer.detectOutliersIssues
    rw [if_neg (Nat.not_lt.mpr h5)]
    simp only []
    split
    · simp only [ne_eq, List.cons_ne_nil, not_false_eq_true, true_iff]
      intro hnil
      simp_all
    · simp_all

theorem detectOutliersIQR_spec_witness :
    5 ≤ (Analyzer.numericValues df6 "x").length ∧
    (5, Cell.vNum 100) ∈ Analyzer.outlierPairs df6 "x" (Analyzer.detLower df6 "x")
        (Analyzer.detUpper df6 "x") ∧
    Analyzer.detectOutliersIssues df6 "x" ≠ [] := by
  have h5 : 5 ≤ (Analyzer.numericValues df6 "x").length := by with_unfolding_all decide
  refine ⟨h5, ?_, ?_⟩
  · exact ((detectOutliersIQR_spec df6 "x" h5).2.2.1 5 (Cell.vNum 100)).mpr
      ⟨by with_unfolding_all decide, 100, rfl, Or.inr (by with_unfolding_all decide)⟩
  · exact (detectOutliersIQR_spec df6 "x" h5).2.2.2.mpr (by with_unfolding_all decide)

/-- **C5** fails on the code: with the ordinary non-transitive similarity
`abcSearch` (`"b"` within threshold of both `"a"` and `"c"`, which are not
within threshold of each other, every value an exact self-match), the
clustering pass over the string column `["a", "b", "c"]` emits the two
clusters `["a", "b"]` and `["c", "b"]` — the distinct value `"b"` is a
member of two different clusters, because the match filter is score-only
and never excludes already-assigned values. -/
theorem categorical_cluster_double_membership :
    (Analyzer.detectCategoricalInconsistency (fun _ => false) abcSearch dfABC).map
        (fun i => i.evidence.clusters) = [some [["a", "b"], ["c", "b"]]] ∧
    (Analyzer.clusterPass (Analyzer.matchGroup abcSearch ["a", "b", "c"])
        ["a", "b", "c"]).1.countP (fun cl => "b" ∈ cl) = 2 := by
  constructor <;> with_unfolding_all decide

theorem clusterStep_used_mono (m : String → List String)
    (acc : List (List String) × List String) (u x : String) (hx : x ∈ acc.2) :
    x ∈ (Analyzer.clusterStep m acc u).2 := by
  unfold Analyzer.clusterStep
  split
  · exact hx
  · exact List.mem_append_left _ hx

theorem clusterFold_used_mono (m : String → List String) (l : List String)
    (acc : List (List String) × List String) (x : String) (hx : x ∈ acc.2) :
    x ∈ (l.foldl (Analyzer.clusterStep m) acc).2 := by
  induction l generalizing acc with
  | nil => exact hx
  | cons y ys ih => exact ih _ (clusterStep_used_mono m acc y x hx)

theorem clusterStep_mem_self (m : String → List String)
    (acc : List (List String) × List String) (u : String) (hu : u ∈ m u) :
    u ∈ (Analyzer.clusterStep m acc u).2 := by
  unfold Analyzer.clusterStep
  split
  · assumption
  · exact List.mem_append_right _ hu

/-- **C5 (amended).** No distinct value is dropped by the clustering pass:
as long as every value occurs in its own match group (with Fuse every
value is an exact self-match of score `0`), every distinct value of the
column is assigned to some group — its own, at the latest — so it ends in
a cluster or stays a singleton; but a value may be a member of **two**
different clusters, since the match groups of later seeds are filtered
only by score and can re-include already-assigned values. -/
theorem clusterPass_none_dropped (m : String → List String) (uniques : List String)
    (hrefl : ∀ u ∈ uniques, u ∈ m u) :
    ∀ u ∈ uniques, u ∈ (Analyzer.clusterPass m uniques).2 := by
  unfold Analyzer.clusterPass
  suffices h : ∀ l : List String, (∀ u ∈ l, u ∈ m u) →
      ∀ acc : List (List String) × List String, ∀ u ∈ l,
        u ∈ (l.foldl (Analyzer.clusterStep m) acc).2 from
    fun u hu => h uniques hrefl ([], []) u hu
  intro l
  induction l with
  | nil => intro _ _ u hu; cases hu
  | cons y ys ih =>
    intro hl acc u hu
    rw [List.foldl_cons]
    rcases List.mem_cons.mp hu with h | h
    · subst h
      exact clusterFold_used_mono m ys _ u
        (clusterStep_mem_self m acc u (hl u (List.mem_cons_self u ys)))
    · exact ih (fun v hv => hl v (List.mem_cons_of_mem y hv)) _ u h

theorem clusterPass_none_dropped_witness :
    (∀ u ∈ (["a", "b", "c"] : List String),
        u ∈ Analyzer.matchGroup abcSearch ["a", "b", "c"] u) ∧
    "b" ∈ (Analyzer.clusterPass (Analyzer.matchGroup abcSearch ["a", "b", "c"])
        ["a", "b", "c"]).2 := by
  have hrefl : ∀ u ∈ (["a", "b", "c"] : List String),
      u ∈ Analyzer.matchGroup abcSearch ["a", "b", "c"] u := by
    with_unfolding_all decide
  exact ⟨hrefl,
    clusterPass_none_dropped (Analyzer.matchGroup abcSearch ["a", "b", "c"])
      ["a", "b", "c"] hrefl "b" (by decide)⟩

theorem ratio_mem_unit {a b : ℕ} (hab : a ≤ b) (hb : 0 < b) :
    0 ≤ (a : ℚ) / (b : ℚ) ∧ (a : ℚ) / (b : ℚ) ≤ 1 :=
  ⟨div_nonneg (by positivity) (by positivity),
    (div_le_one (by exact_mod_cast hb)).mpr (by exact_mod_cast hab)⟩

theorem dedupFirst_length_le (l : List String) : (dedupFirst l).length ≤ l.length := by
  induction l with
  | nil => simp [dedupFirst]
  | cons x xs ih =>
    simp only [dedupFirst, List.length_cons]
    have h := List.length_filter_le (fun y => decide (y ≠ x)) (dedupFirst xs)
    omega

theorem seriesValues_length (df : Analyzer.Dataset) (col : String) :
    (Analyzer.seriesValues df col).length = df.records.length :=
  List.length_map ..

theorem detectMissingCol_score01 (df : Analyzer.Dataset) (col : String) :
    ∀ i ∈ Analyzer.detectMissingCol df col, 0 ≤ i.score ∧ i.score ≤ 1 := by
  intro i hi
  unfold Analyzer.detectMissingCol at hi
  simp only [] at hi
  split at hi
  case isTrue hlen =>
    norm_num at hi
  case isFalse hlen =>
    split at hi
    case isTrue h =>
      rw [List.mem_singleton] at hi
      subst hi
      exact ratio_mem_unit (List.countP_le_length _) (Nat.pos_of_ne_zero hlen)
    case isFalse h => cases hi

theorem detectMissingRow_score01 (df : Analyzer.Dataset) :
    ∀ i ∈ Analyzer.detectMissingRow df, 0 ≤ i.score ∧ i.score ≤ 1 := by
  intro i hi
  unfold Analyzer.detectMissingRow at hi
  rw [List.mem_filterMap] at hi
  obtain ⟨p, -, hp⟩ := hi
  simp only [] at hp
  split at hp
  case isTrue h =>
    cases hp
    simp only []
    by_cases hl : (Analyzer.rowCells df p.2).length = 0
    · have hc : (Analyzer.rowCells df p.2).countP Analyzer.isMissingCell = 0 :=
        Nat.le_zero.mp (hl ▸ List.countP_le_length _)
      rw [hc, hl] at h
      norm_num at h
    · exact ratio_mem_unit (List.countP_le_length _) (Nat.pos_of_ne_zero hl)
  case isFalse h => cases hp

theorem detectMissing_score01 (df : Analyzer.Dataset) :
    ∀ i ∈ Analyzer.detectMissing df, 0 ≤ i.score ∧ i.score ≤ 1 := by
  intro i hi
  unfold Analyzer.detectMissing at hi
  rw [List.mem_append] at hi
  rcases hi with hi | hi
  · rw [List.mem_flatten] at hi
    obtain ⟨l, hl, hil⟩ := hi
    rw [List.mem_map] at hl
    obtain ⟨col, -, rfl⟩ := hl
    exact detectMissingCol_score01 df col i hil
  · exact detectMissingRow_score01 df i hi

theorem detectDuplicatesAndPK_score01 (df : Analyzer.Dataset) :
    ∀ i ∈ Analyzer.detectDuplicatesAndPK df, 0 ≤ i.score ∧ i.score ≤ 1 := by
  intro i hi
  unfold Analyzer.detectDuplicatesAndPK at hi
  simp only [] at hi
  rw [List.mem_append] at hi
  rcases hi with hi | hi
  · split at hi
    · rw [List.mem_singleton] at hi
      subst hi
      norm_num
    · cases hi
  · rw [List.mem_flatten] at hi
    obtain ⟨l, hl, hil⟩ := hi
    rw [List.mem_map] at hl
    obtain ⟨col, -, rfl⟩ := hl
    split at hil
    case isTrue hz =>
      norm_num at hil
    case isFalse hz =>
      split at hil
      case isTrue h =>
        rw [List.mem_singleton] at hil
        subst hil
        have h1 := dedupFirst_length_le
          (((Analyzer.seriesValues df col).filter Analyzer.keepNonNull).map Cell.jsString)
        rw [List.length_map] at h1
        have h2 := List.length_filter_le Analyzer.keepNonNull (Analyzer.seriesValues df col)
        have h3 := seriesValues_length df col
        exact ratio_mem_unit (by omega) (Nat.pos_of_ne_zero hz)
      case isFalse h => cases hil

theorem detectOutliersIssues_score01 (df : Analyzer.Dataset) (col : String) :
    ∀ i ∈ Analyzer.detectOutliersIssues df col, 0 ≤ i.score ∧ i.score ≤ 1 := by
  intro i hi
  unfold Analyzer.detectOutliersIssues at hi
  simp only [] at hi
  split at hi
  case isTrue => cases hi
  case isFalse h5 =>
    split at hi
    case isTrue hne =>
      rw [List.mem_singleton] at hi
      subst hi
      have hle : (Analyzer.outlierPairs df col (Analyzer.detLower df col)
          (Analyzer.detUpper df col)).length ≤ df.records.length := by
        unfold Analyzer.outlierPairs
        have h := List.length_filter_le
          (fun p : ℕ × Cell =>
            match p.2.toNum with
            | some x => decide (x < Analyzer.detLower df col ∨ x > Analyzer.detUpper df col)
            | none => false)
          (Analyzer.seriesValues df col).enum
        rw [List.enum_length, seriesValues_length] at h
        exact h
      have hpos : 0 < df.records.length := by
        have harr := Nat.not_lt.mp h5
        have hfm := List.length_filterMap_le Cell.toNum (Analyzer.seriesValues df col)
        have h3 := seriesValues_length df col
        unfold Analyzer.numericValues at harr
        omega
      exact ratio_mem_unit hle hpos
    case isFalse => cases hi

theorem runOutliers_score01 (dateOk : String → Bool) (df : Analyzer.Dataset) :
    ∀ i ∈ Analyzer.runOutliers dateOk df, 0 ≤ i.score ∧ i.score ≤ 1 := by
  intro i hi
  unfold Analyzer.runOutliers at hi
  rw [List.mem_flatten] at hi
  obtain ⟨l, hl, hil⟩ := hi
  rw [List.mem_map] at hl
  obtain ⟨col, -, rfl⟩ := hl
  split at hil
  · exact detectOutliersIssues_score01 df col i hil
  · cases hil

theorem detectDateParsing_score01 (dateOk : String → Bool) (df : Analyzer.Dataset) :
    ∀ i ∈ Analyzer.detectDateParsing dateOk df, 0 ≤ i.score ∧ i.score ≤ 1 := by
  intro i hi
  unfold Analyzer.detectDateParsing at hi
  rw [List.mem_flatten] at hi
  obtain ⟨l, hl, hil⟩ := hi
  rw [List.mem_map] at hl
  obtain ⟨col, -, rfl⟩ := hl
  split at hil
  case isTrue => cases hil
  case isFalse =>
    simp only [] at hil
    split at hil
    case isTrue hz =>
      norm_num at hil
    case isFalse hz =>
      split at hil
      case isTrue h =>
        rw [List.mem_singleton] at hil
        subst hil
        exact ratio_mem_unit (List.countP_le_length _) (Nat.pos_of_ne_zero hz)
      case isFalse h => cases hil

theorem detectCategorical_score01 (dateOk : String → Bool)
    (fsearch : List String → String → List (String × ℚ)) (df : Analyzer.Dataset) :
    ∀ i ∈ Analyzer.detectCategoricalInconsistency dateOk fsearch df,
      0 ≤ i.score ∧ i.score ≤ 1 := by
  intro i hi
  unfold Analyzer.detectCategoricalInconsistency at hi
  rw [List.mem_flatten] at hi
  obtain ⟨l, hl, hil⟩ := hi
  rw [List.mem_map] at hl
  obtain ⟨col, -, rfl⟩ := hl
  split at hil
  case isTrue => cases hil
  case isFalse =>
    simp only [] at hil
    split at hil
    case isTrue => cases hil
    case isFalse =>
      split at hil
      case isTrue =>
        rw [List.mem_singleton] at hil
        subst hil
        norm_num
      case isFalse => cases hil

theorem detectSuspiciousText_score01 (dateOk : String → Bool) (df : Analyzer.Dataset) :
    ∀ i ∈ Analyzer.detectSuspiciousText dateOk df, 0 ≤ i.score ∧ i.score ≤ 1 := by
  intro i hi
  unfold Analyzer.detectSuspiciousText at hi
  rw [List.mem_flatten] at hi
  obtain ⟨l, hl, hil⟩ := hi
  rw [List.mem_map] at hl
  obtain ⟨col, -, rfl⟩ := hl
  split at hil
  case isTrue => cases hil
  case isFalse =>
    simp only [] at hil
    split at hil
    case isTrue =>
      rw [List.mem_singleton] at hil
      subst hil
      norm_num
    case isFalse => cases hil

/-- **C9.** Every issue any of the seven detectors emits during an
Analyzer run has a score in `[0, 1]`: the fixed scores are `0.9` and
`0.6`, and every computed score is a ratio `a / b` with `0 ≤ a ≤ b` and
`b > 0` in its emission branch (missing and failure fractions are counts
over the column, row or sample length; the pk fraction is a deduplicated
count over the row count; the outlier fraction is a flagged-row count over
the row count). -/
theorem runAll_scores_unit (dateOk : String → Bool)
    (fsearch : List String → String → List (String × ℚ)) (df : Analyzer.Dataset) :
    ∀ i ∈ Analyzer.runAllIssues dateOk fsearch df, 0 ≤ i.score ∧ i.score ≤ 1 := by
  intro i hi
  unfold Analyzer.runAllIssues at hi
  simp only [List.mem_append] at hi
  rcases hi with ((((hi | hi) | hi) | hi) | hi) | hi
  · exact detectMissing_score01 df i hi
  · exact detectDuplicatesAndPK_score01 df i hi
  · exact runOutliers_score01 dateOk df i hi
  · exact detectDateParsing_score01 dateOk df i hi
  · exact detectCategorical_score01 dateOk fsearch df i hi
  · exact detectSuspiciousText_score01 dateOk df i hi

theorem runAll_scores_unit_witness :
    df9Issue ∈ Analyzer.runAllIssues (fun _ => false) (fun _ _ => []) df9 ∧
    0 ≤ df9Issue.score ∧ df9Issue.score ≤ 1 := by
  have hmem : df9Issue ∈ Analyzer.runAllIssues (fun _ => false) (fun _ _ => []) df9 := by
    with_unfolding_all decide
  exact ⟨hmem, runAll_scores_unit (fun _ => false) (fun _ _ => []) df9 df9Issue hmem⟩
